import Mathlib

/-!
Verification of the RoboDK C++ API client (`robodk_api.cpp`) against its
natural-language specification.

The wire protocol is modelled shallowly: the byte stream of the single TCP
socket is abstracted to a list of typed tokens (`Tok`), one token per
protocol primitive the code reads or writes in a single `QDataStream`
operation.  Double-precision values are carried as their 64-bit patterns
(`Nat`), since the client never computes with them — it only copies them
to and from the wire, and the spec speaks of bit-equality.

Each Lean definition below is translated from the correspondingly named
C++ function of `src/C++/Example/robodk_api.cpp`; the line numbers of the
source are given in the doc comments.
-/

namespace RoboDKModel

/-- A protocol token: one primitive value as read/written by a single
`QDataStream` operation on the socket.  `int` is a 4-byte signed integer,
`line` a newline-terminated UTF-8 text line, `dbl` the 64-bit pattern of
an 8-byte double, `u64` an 8-byte unsigned identifier. -/
inductive Tok where
  | int (v : Int)
  | line (s : String)
  | dbl (b : Nat)
  | u64 (b : Nat)
deriving DecidableEq, Repr

/-- `RoboDK::_recv_Int` (robodk_api.cpp:2940): reads a 4-byte signed
integer; if fewer than 4 bytes arrive before the timeout it returns `-1`
and consumes nothing. -/
def recv_Int : List Tok → Int × List Tok
  | Tok.int v :: rest => (v, rest)
  | s => (-1, s)

/-- `RoboDK::_recv_Line` (robodk_api.cpp:2920): reads one
newline-terminated line, stripped of its terminator; on a timeout it
returns the empty string and discards the buffered input (`readAll`). -/
def recv_Line : List Tok → String × List Tok
  | Tok.line l :: rest => (l, rest)
  | _ => ("", [])

/-- `RoboDK::_check_status` (robodk_api.cpp:2796): reads the trailing
status integer of a request.  Result components: the value the C++
function returns (converted to `bool` by the caller, `0` meaning
success), the human-readable message line read from the channel (only
status codes 2 and 3 read one), and the remaining stream. -/
def check_status (s : List Tok) : Int × Option String × List Tok :=
  let r := recv_Int s
  let status := r.1
  let s1 := r.2
  if 0 < status ∧ status < 10 then
    if status = 1 then
      (status, none, s1)
    else if status = 2 then
      let rl := recv_Line s1
      (0, some rl.1, rl.2)
    else if status = 3 then
      let rl := recv_Line s1
      (status, some rl.1, rl.2)
    else if status = 9 then
      (status, none, s1)
    else
      (status, none, s1)
  else if status = 0 then
    (0, none, s1)
  else
    (status, none, s1)

/-- Head test used to describe the failure branch of `_recv_Item`: true
exactly when an 8-byte identifier is available at the front of the
stream. -/
def isU64Head : List Tok → Bool
  | Tok.u64 _ :: _ => true
  | _ => false

/-- `RoboDK::_recv_Item` (robodk_api.cpp:2960–2975): initialises the item
to `(_PTR = 0, _TYPE = -1)`; if fewer than 8 bytes are available before
the timeout it returns that default without consuming anything; otherwise
it reads the 8-byte identifier `_PTR` **and then a 4-byte `_TYPE`** from
the stream (`ds >> item._PTR; ds >> item._TYPE;`).  When the identifier
is present but the 4-byte type is not, `QDataStream` zeroes the read
value (read-past-end), modelled by the middle branch.  Result: the pair
`(_PTR, _TYPE)` and the remaining stream. -/
def recv_Item : List Tok → (Nat × Int) × List Tok
  | Tok.u64 p :: Tok.int t :: rest => ((p, t), rest)
  | Tok.u64 p :: rest => ((p, 0), rest)
  | s => ((0, -1), s)

/-- `RoboDK::_send_Item` (robodk_api.cpp:2976–2985): writes only the
8-byte identifier; a NULL item sends identifier 0.  No type tag is put on
the wire. -/
def send_Item : Option Nat → List Tok
  | none => [Tok.u64 0]
  | some p => [Tok.u64 p]

/-- How many doubles can be pulled off the front of the stream: returns
the first `n` double payloads and the rest of the stream, or `none` when
fewer than `n` doubles are available (the timeout case). -/
def takeDbls : Nat → List Tok → Option (List Nat × List Tok)
  | 0, s => some ([], s)
  | n + 1, Tok.dbl b :: rest => (takeDbls n rest).map (fun pr => (b :: pr.1, pr.2))
  | _ + 1, _ => none

/-- Overwrite the front of the caller-owned buffer `buf` with the
received values `vals`, as the C++ loop `values[i] = valuei` does on a
caller-allocated array. -/
def writeFront (buf vals : List Nat) : List Nat :=
  vals ++ buf.drop vals.length

/-- `RoboDK::_recv_Array(double*, int*)` (robodk_api.cpp:3079–3102):
reads the int32 count; a negative count (including the `-1` of a failed
`_recv_Int`) fails without touching `*psize`; otherwise `*psize` is set
to the count **before** the safety-ceiling check `nvalues > 50`, which
fails without reading any double; otherwise the declared number of
doubles is read into the caller's buffer.  Result components: the
returned `bool`, the buffer, `*psize`, and the remaining stream. -/
def recv_Array (s : List Tok) (buf : List Nat) (size0 : Int) :
    Bool × List Nat × Int × List Tok :=
  let r := recv_Int s
  let nvalues := r.1
  let s1 := r.2
  if nvalues < 0 then
    (false, buf, size0, s1)
  else
    if nvalues > 50 then
      (false, buf, nvalues, s1)
    else
      match takeDbls nvalues.toNat s1 with
      | none => (false, buf, nvalues, s1)
      | some pr => (true, writeFront buf pr.1, nvalues, pr.2)

/-- `tJoints`: the joint vector — a DOF count `nDOFs` and the values
array (64-bit double patterns). -/
structure tJoints where
  nDOFs : Int
  Values : List Nat
deriving DecidableEq, Repr

/-- `RoboDK::_recv_Array(tJoints*)` (robodk_api.cpp:3058–3060): receives
directly into the joint vector's `Values` array and `nDOFs` field. -/
def recv_Array_joints (s : List Tok) (j : tJoints) : Bool × tJoints × List Tok :=
  let r := recv_Array s j.Values j.nDOFs
  (r.1, ⟨r.2.2.1, r.2.1⟩, r.2.2.2)

/-- A 4x4 pose (`Mat`): entry `(i, j)` holds the 64-bit pattern of the
double at row `i`, column `j`. -/
abbrev Mat4 := Fin 4 → Fin 4 → Nat

/-- The 64-bit IEEE-754 pattern of the double `1.0`. -/
def doubleOneBits : Nat := 0x3FF0000000000000

/-- `Mat::Mat()` (robodk_api.cpp:286–288): the default-constructed pose,
`setToIdentity()` — ones on the diagonal, zeros elsewhere. -/
def matIdentity : Mat4 := fun i j => if i = j then doubleOneBits else 0

/-- The 16 doubles of a pose in the order the C++ nested loops emit and
consume them (`for j` outer over columns, `for i` inner over rows):
column-major. -/
def vals16 (m : Mat4) : List Nat :=
  [m 0 0, m 1 0, m 2 0, m 3 0,
   m 0 1, m 1 1, m 2 1, m 3 1,
   m 0 2, m 1 2, m 2 2, m 3 2,
   m 0 3, m 1 3, m 2 3, m 3 3]

/-- `RoboDK::_send_Pose` (robodk_api.cpp:3013–3026): writes 16 doubles,
column loop outer, row loop inner (`valuei = pose.Get(i,j); ds << valuei`). -/
def send_Pose (m : Mat4) : List Tok :=
  (vals16 m).map Tok.dbl

/-- Rebuild the pose from the 16 received values exactly as the C++ loop
stores them: the value at position `4*j + i` of the stream goes to
`pose.Set(i, j, ·)`. -/
def buildPose (vals : List Nat) : Mat4 :=
  fun i j => vals.getD (4 * j.val + i.val) 0

/-- `RoboDK::_recv_Pose` (robodk_api.cpp:2990–3012): if fewer than
`16*sizeof(double)` bytes arrive before the timeout, the
default-constructed pose (the identity) is returned and nothing is
consumed; otherwise 16 doubles are read, column loop outer, row loop
inner. -/
def recv_Pose (s : List Tok) : Mat4 × List Tok :=
  match takeDbls 16 s with
  | none => (matIdentity, s)
  | some pr => (buildPose pr.1, pr.2)

/-- One step of `_moveX`/`_moveC` at call granularity.  `waitMove` is the
whole `Item::WaitMove` wait-until-idle exchange (robodk_api.cpp:1300);
the `send*` events are the channel writes; `checkStatus` is the status
decode of the move command. -/
inductive Ev where
  | waitMove
  | sendLine (s : String)
  | sendInt (v : Int)
  | sendArray (vals : List Nat)
  | sendItem (p : Nat)
  | checkStatus
deriving DecidableEq, Repr

/-- The target encoding shared by `_moveX` and `_moveC`: the three-way
discriminator and the positional placeholders.  A handle target sends
tag 3, a NULL array (count 0, modelled as the empty array) and the
handle; a joints target sends tag 1, the joint values and a NULL item
(identifier 0); a pose target sends tag 2, the 16 pose values as an
array (`_send_Array(const Mat*)`, robodk_api.cpp:3066, column-major) and
a NULL item.  When none of the three is supplied the C++ falls into the
final `else { throw 0; }` branch, modelled as `none`. -/
def encodeTargetEv (target : Option Nat) (joints : Option (List Nat))
    (mat : Option Mat4) : Option (List Ev) :=
  match target, joints, mat with
  | some t, _, _ => some [Ev.sendInt 3, Ev.sendArray [], Ev.sendItem t]
  | none, some j, _ => some [Ev.sendInt 1, Ev.sendArray j, Ev.sendItem 0]
  | none, none, some m => some [Ev.sendInt 2, Ev.sendArray (vals16 m), Ev.sendItem 0]
  | none, none, none => none

/-- `RoboDK::_moveX` (robodk_api.cpp:3167–3192): wait until the robot is
idle, send the "MoveX" command line and the move type, encode the one
target, send the robot item, decode the status, and — when `blocking` —
wait until idle once more.  The `Bool` is false exactly when the C++
throws (`throw 0`) because no target was supplied; the event list is
everything performed up to that point. -/
def moveX (target : Option Nat) (joints : Option (List Nat)) (mat : Option Mat4)
    (robot : Nat) (movetype : Int) (blocking : Bool) : Bool × List Ev :=
  let pre : List Ev := [Ev.waitMove, Ev.sendLine "MoveX", Ev.sendInt movetype]
  match encodeTargetEv target joints mat with
  | none => (false, pre)
  | some e =>
      (true, pre ++ e ++ [Ev.sendItem robot, Ev.checkStatus]
        ++ (if blocking then [Ev.waitMove] else []))

/-- `RoboDK::_moveC` (robodk_api.cpp:3194–3237): like `_moveX` with the
fixed move type 3 and two independently encoded targets; either target
missing all three variants raises `throw 0` at its own check, after
everything before it has been performed. -/
def moveC (t1 : Option Nat) (j1 : Option (List Nat)) (m1 : Option Mat4)
    (t2 : Option Nat) (j2 : Option (List Nat)) (m2 : Option Mat4)
    (robot : Nat) (blocking : Bool) : Bool × List Ev :=
  let pre : List Ev := [Ev.waitMove, Ev.sendLine "MoveC", Ev.sendInt 3]
  match encodeTargetEv t1 j1 m1 with
  | none => (false, pre)
  | some e1 =>
      match encodeTargetEv t2 j2 m2 with
      | none => (false, pre ++ e1)
      | some e2 =>
          (true, pre ++ e1 ++ e2 ++ [Ev.sendItem robot, Ev.checkStatus]
            ++ (if blocking then [Ev.waitMove] else []))

/-- The environment a call to `RoboDK::_connect` runs against: whether
the TCP connect completes within the timeout (`waitForConnected`),
whether a reply line becomes readable (`canReadLine` /
`waitForReadyRead`), and the text the server replies (`readAll`). -/
structure ConnectEnv where
  tcpOk : Bool
  gotReply : Bool
  reply : String
deriving DecidableEq, Repr

/-- `QString::startsWith`, modelled character-wise: the reply text begins
with the given marker. -/
def lineStartsWith (r marker : String) : Bool :=
  marker.data.isPrefixOf r.data

/-- `RoboDK::_connect` (robodk_api.cpp:2868–2907): open the socket; on a
connect timeout delete it (`_COM = NULL`) and fail; otherwise write the
start-marker line `"CMD_START"` and the version line `"1 0"`, wait for a
reply, and keep the socket only if the reply starts with `"READY"`; any
failing step deletes the socket and returns `false`.  Result components:
the returned `bool`, the final `_COM` field (`none` = `NULL`), and the
handshake lines written. -/
def connect (env : ConnectEnv) : Bool × Option Unit × List String :=
  if env.tcpOk = false then
    (false, none, [])
  else if env.gotReply = false then
    (false, none, ["CMD_START", "1 0"])
  else if lineStartsWith env.reply "READY" = false then
    (false, none, ["CMD_START", "1 0"])
  else
    (true, some (), ["CMD_START", "1 0"])

/-- `RoboDK::_connected` (robodk_api.cpp:2780–2782): the client counts as
connected exactly when `_COM` is non-NULL (and the retained socket is in
the connected state, which holds for every socket `_connect` keeps). -/
def connected (com : Option Unit) : Bool :=
  com.isSome

/-- `ROBODK_API_TIMEOUT` (robodk_api.cpp:24): the default per-call
communication timeout, in milliseconds. -/
def ROBODK_API_TIMEOUT : Int := 1000

/-- The mutable client state the timeout-restoring operations touch:
the process-wide `_TIMEOUT` field. -/
structure RDKState where
  timeout : Int
deriving DecidableEq, Repr

/-- The `_TIMEOUT` effect of `Item::MoveJ_Test` (robodk_api.cpp:1191):
`_TIMEOUT = 3600*1000` before the blocking `_recv_Int`, then
`_TIMEOUT = ROBODK_API_TIMEOUT` after it. -/
def moveJ_Test_timeout (s : RDKState) : RDKState :=
  let s1 := { s with timeout := 3600 * 1000 }
  { s1 with timeout := ROBODK_API_TIMEOUT }

/-- The `_TIMEOUT` effect of `RoboDK::ItemUserPick` (robodk_api.cpp:1857):
`_TIMEOUT = 3600*1000` before the blocking `_recv_Item`, then
`_TIMEOUT = ROBODK_API_TIMEOUT` after it. -/
def itemUserPick_timeout (s : RDKState) : RDKState :=
  let s1 := { s with timeout := 3600 * 1000 }
  { s1 with timeout := ROBODK_API_TIMEOUT }

/-- The `_TIMEOUT` effect of `Item::WaitMove` (robodk_api.cpp:1300):
`_TIMEOUT = timeout_sec * 1000` before the blocking status read, then
`_TIMEOUT = ROBODK_API_TIMEOUT` after it. -/
def waitMove_timeout (timeout_ms : Int) (s : RDKState) : RDKState :=
  let s1 := { s with timeout := timeout_ms }
  { s1 with timeout := ROBODK_API_TIMEOUT }

end RoboDKModel

namespace RoboDKModel

theorem takeDbls_map_dbl (l : List Nat) (rest : List Tok) :
    takeDbls l.length (l.map Tok.dbl ++ rest) = some (l, rest) := by
  induction l with
  | nil => rfl
  | cons a l ih => simp [takeDbls, ih]

theorem takeDbls_short (n : Nat) : ∀ s : List Tok, s.length < n → takeDbls n s = none := by
  induction n with
  | zero => intro s h; exact absurd h (Nat.not_lt_zero _)
  | succ n ih =>
    intro s h
    match s with
    | [] => rfl
    | Tok.int v :: rest => rfl
    | Tok.line l :: rest => rfl
    | Tok.u64 b :: rest => rfl
    | Tok.dbl b :: rest =>
      have : rest.length < n := by simpa using h
      simp [takeDbls, ih rest this]

theorem recv_send_Pose_aux (m : Mat4) (rest : List Tok) :
    recv_Pose (send_Pose m ++ rest) = (m, rest) := by
  have h : takeDbls 16 ((vals16 m).map Tok.dbl ++ rest) = some (vals16 m, rest) :=
    takeDbls_map_dbl (vals16 m) rest
  have hb : buildPose (vals16 m) = m := by
    funext i j
    fin_cases i <;> fin_cases j <;> rfl
  simp [recv_Pose, send_Pose, h, hb]

/-- C7: the pose wire layout is 16 doubles in column-major order (column
loop outer, row loop inner), and encoding any 4x4 pose with `_send_Pose`
then decoding the produced tokens with `_recv_Pose` yields the original
16 values exactly, leaving any trailing stream untouched. -/
theorem send_recv_Pose_roundtrip (m : Mat4) (rest : List Tok) :
    send_Pose m
      = [Tok.dbl (m 0 0), Tok.dbl (m 1 0), Tok.dbl (m 2 0), Tok.dbl (m 3 0),
         Tok.dbl (m 0 1), Tok.dbl (m 1 1), Tok.dbl (m 2 1), Tok.dbl (m 3 1),
         Tok.dbl (m 0 2), Tok.dbl (m 1 2), Tok.dbl (m 2 2), Tok.dbl (m 3 2),
         Tok.dbl (m 0 3), Tok.dbl (m 1 3), Tok.dbl (m 2 3), Tok.dbl (m 3 3)]
    ∧ recv_Pose (send_Pose m ++ rest) = (m, rest) :=
  ⟨rfl, recv_send_Pose_aux m rest⟩

/-- C9: when fewer than 16 doubles (128 bytes) arrive before the timeout,
`_recv_Pose` returns the default-constructed pose — the identity matrix —
and since decoding a genuinely transmitted identity pose returns the very
same matrix, a failed pose receive is indistinguishable from a genuine
identity-pose response at the returned value. -/
theorem recv_Pose_timeout_identity (s : List Tok) (h : s.length < 16) :
    recv_Pose s = (matIdentity, s)
    ∧ recv_Pose (send_Pose matIdentity) = (matIdentity, []) := by
  constructor
  · simp [recv_Pose, takeDbls_short 16 s h]
  · have := recv_send_Pose_aux matIdentity []
    simpa using this

/-- Witness for C9 on a concrete short stream. -/
theorem recv_Pose_timeout_identity_witness :
    recv_Pose [Tok.dbl 9] = (matIdentity, [Tok.dbl 9])
    ∧ recv_Pose (send_Pose matIdentity) = (matIdentity, []) :=
  recv_Pose_timeout_identity [Tok.dbl 9] (by decide)

/-- C4: for every move issued through `_moveX` that does not throw, the
trace is one wait-until-idle exchange, then the "MoveX" command line,
then a middle segment containing no wait-until-idle exchange, then the
status decode, then — exactly when the move is blocking — one final
wait-until-idle exchange: a non-blocking move waits exactly once (before
the command) and never after, a blocking move exactly once before and
once after the status decode. -/
theorem moveX_waitMove_discipline (target : Option Nat)
    (joints : Option (List Nat)) (mat : Option Mat4) (robot : Nat)
    (movetype : Int) (blocking : Bool)
    (h : (moveX target joints mat robot movetype blocking).1 = true) :
    ∃ mid, (moveX target joints mat robot movetype blocking).2
        = [Ev.waitMove, Ev.sendLine "MoveX"] ++ mid ++ [Ev.checkStatus]
          ++ (if blocking then [Ev.waitMove] else [])
      ∧ mid.count Ev.waitMove = 0 := by
  match target, joints, mat with
  | some t, _, _ =>
    refine ⟨[Ev.sendInt movetype, Ev.sendInt 3, Ev.sendArray [], Ev.sendItem t,
      Ev.sendItem robot], ?_, ?_⟩
    · simp [moveX, encodeTargetEv]
    · simp [List.count_cons]
  | none, some j, _ =>
    refine ⟨[Ev.sendInt movetype, Ev.sendInt 1, Ev.sendArray j, Ev.sendItem 0,
      Ev.sendItem robot], ?_, ?_⟩
    · simp [moveX, encodeTargetEv]
    · simp [List.count_cons]
  | none, none, some m =>
    refine ⟨[Ev.sendInt movetype, Ev.sendInt 2, Ev.sendArray (vals16 m),
      Ev.sendItem 0, Ev.sendItem robot], ?_, ?_⟩
    · simp [moveX, encodeTargetEv]
    · simp [List.count_cons]
  | none, none, none =>
    simp [moveX, encodeTargetEv] at h

/-- Witness for C4: a blocking joint move to handle 1 on robot 2. -/
theorem moveX_waitMove_discipline_witness :
    ∃ mid, (moveX (some 1) none none 2 3 true).2
        = [Ev.waitMove, Ev.sendLine "MoveX"] ++ mid ++ [Ev.checkStatus]
          ++ (if true then [Ev.waitMove] else [])
      ∧ mid.count Ev.waitMove = 0 :=
  moveX_waitMove_discipline (some 1) none none 2 3 true (by decide)

/-- C5 counterexample: calling `_moveX` with none of handle, joints or
pose does throw (result `false`), but only after the "MoveX" command
line has already been written to the channel — refuting the claim that
no bytes of the move request reach the wire. -/
theorem moveX_missing_target_sends_header :
    (moveX none none none 7 1 false).1 = false
    ∧ Ev.sendLine "MoveX" ∈ (moveX none none none 7 1 false).2 := by
  decide

/-- C5 (amended): when none of handle, joints or pose is supplied for a
target, the call throws (fatal, not retried) without encoding any target
field — but only after the wait-until-idle exchange, the command verb
line and the move-type integer have already been performed, and in
`_moveC`, when the second target is the missing one, after the first
target's encoding as well. -/
theorem moveX_moveC_missing_target (robot : Nat) (movetype : Int)
    (b : Bool) (t1 : Option Nat) (j1 : Option (List Nat)) (m1 : Option Mat4)
    (e1 : List Ev) (h : encodeTargetEv t1 j1 m1 = some e1) :
    moveX none none none robot movetype b
      = (false, [Ev.waitMove, Ev.sendLine "MoveX", Ev.sendInt movetype])
    ∧ moveC none none none none none none robot b
      = (false, [Ev.waitMove, Ev.sendLine "MoveC", Ev.sendInt 3])
    ∧ moveC t1 j1 m1 none none none robot b
      = (false, [Ev.waitMove, Ev.sendLine "MoveC", Ev.sendInt 3] ++ e1) := by
  refine ⟨rfl, rfl, ?_⟩
  simp only [moveC]
  rw [h]
  rfl

/-- Witness for C5 (amended): first target a handle, second target
absent. -/
theorem moveX_moveC_missing_target_witness :
    moveX none none none 7 1 false
      = (false, [Ev.waitMove, Ev.sendLine "MoveX", Ev.sendInt 1])
    ∧ moveC none none none none none none 7 false
      = (false, [Ev.waitMove, Ev.sendLine "MoveC", Ev.sendInt 3])
    ∧ moveC (some 5) none none none none none 7 false
      = (false, [Ev.waitMove, Ev.sendLine "MoveC", Ev.sendInt 3]
          ++ [Ev.sendInt 3, Ev.sendArray [], Ev.sendItem 5]) :=
  moveX_moveC_missing_target 7 1 false (some 5) none none
    [Ev.sendInt 3, Ev.sendArray [], Ev.sendItem 5] (by decide)

/-- C6: if the server's handshake reply does not start with `"READY"`
the connect fails with the socket torn down (`_COM = NULL`), and more
generally every failing `_connect` — at whichever step it fails — leaves
`_COM = NULL`, so the client ends in the Disconnected state with no
partial connection retained. -/
theorem connect_failure_disconnected (env : ConnectEnv) :
    (lineStartsWith env.reply "READY" = false
      → (connect env).1 = false ∧ (connect env).2.1 = none)
    ∧ ((connect env).1 = false
      → (connect env).2.1 = none ∧ connected (connect env).2.1 = false) := by
  rcases env with ⟨tcp, got, rep⟩
  cases tcp <;> cases got <;> cases hr : lineStartsWith rep "READY" <;>
    simp [connect, connected, hr]

/-- Witness for C6: a reachable server answering `"HELLO"` instead of
`"READY ..."` leaves the client disconnected. -/
theorem connect_failure_disconnected_witness :
    (connect ⟨true, true, "HELLO"⟩).1 = false
    ∧ (connect ⟨true, true, "HELLO"⟩).2.1 = none :=
  (connect_failure_disconnected ⟨true, true, "HELLO"⟩).1 (by decide)

/-- C8 counterexample: with the process-wide timeout previously set to
42 ms, running the path collision check leaves the timeout at the
default constant (1000 ms), not at the prior value — refuting the claim
that for every prior timeout value the field after the call equals its
value before the call. -/
theorem timeout_not_restored_counterexample :
    (moveJ_Test_timeout { timeout := 42 }).timeout ≠ 42 := by
  decide

/-- C8 (amended): the long-running operations (`MoveJ_Test`,
`ItemUserPick`, `WaitMove`) temporarily overwrite the shared per-call
timeout and, after the blocking receive, reset it to the fixed default
`ROBODK_API_TIMEOUT` (1000 ms) — not to a saved copy of the prior value;
the prior value is therefore recovered exactly when it was already the
default. -/
theorem timeout_reset_to_default (s : RDKState) (ms : Int) :
    (moveJ_Test_timeout s).timeout = ROBODK_API_TIMEOUT
    ∧ (itemUserPick_timeout s).timeout = ROBODK_API_TIMEOUT
    ∧ (waitMove_timeout ms s).timeout = ROBODK_API_TIMEOUT
    ∧ (s.timeout = ROBODK_API_TIMEOUT
      → (moveJ_Test_timeout s).timeout = s.timeout) := by
  refine ⟨rfl, rfl, rfl, fun h => ?_⟩
  rw [h]
  rfl

/-- Witness for C8 (amended): a client whose timeout is at the default
keeps it across the call. -/
theorem timeout_reset_to_default_witness :
    (moveJ_Test_timeout { timeout := 1000 }).timeout
      = ({ timeout := 1000 } : RDKState).timeout :=
  (timeout_reset_to_default { timeout := 1000 } 5).2.2.2 (by decide)

end RoboDKModel

namespace RoboDKModel

/-- C1: status decoding follows the fixed taxonomy.  Code 0 is success
(result 0) and consumes no extra token; code 2 is treated as success
(result 0) and consumes exactly the one message line, which is preserved;
code 3 is a failure (result 3) and consumes exactly the one message line,
which is preserved; codes 1 and 9 are failures (nonzero results) that
consume zero extra lines.  Because the remaining stream is returned
unchanged for codes 0, 1 and 9 even when a line token follows, the
message line is read only when code 2 or 3 is observed. -/
theorem check_status_taxonomy (msg : String) (rest : List Tok) :
    check_status (Tok.int 0 :: rest) = (0, none, rest)
    ∧ check_status (Tok.int 2 :: Tok.line msg :: rest) = (0, some msg, rest)
    ∧ check_status (Tok.int 3 :: Tok.line msg :: rest) = (3, some msg, rest)
    ∧ check_status (Tok.int 1 :: rest) = (1, none, rest)
    ∧ check_status (Tok.int 9 :: rest) = (9, none, rest) := by
  refine ⟨rfl, rfl, rfl, rfl, rfl⟩

/-- C2 counterexample: on a stream carrying identifier 5 followed by the
4-byte integer 7, `_recv_Item` populates the received handle's type tag
with 7 from the wire (consuming the integer), so the received handle does
not carry the locally-assigned `-1` tag — refuting the claim that every
received handle carries `-1` and that the type tag is never
transmitted. -/
theorem recv_Item_reads_type_from_wire :
    recv_Item [Tok.u64 5, Tok.int 7] = ((5, 7), [])
    ∧ (recv_Item [Tok.u64 5, Tok.int 7]).1.2 ≠ -1 := by
  refine ⟨rfl, by decide⟩

/-- C2 (amended): a handle **sent** to the wire carries only its 8-byte
identifier — no type tag is transmitted on send; a **received** handle,
however, has both its 8-byte identifier and a 4-byte type tag read from
the stream, and the locally-assigned "unknown type" tag `-1` remains
only when the receive fails before the identifier arrives. -/
theorem send_recv_Item_wire (it : Option Nat) (p : Nat) (t : Int)
    (rest s : List Tok) (h : isU64Head s = false) :
    send_Item it = [Tok.u64 (it.getD 0)]
    ∧ recv_Item (Tok.u64 p :: Tok.int t :: rest) = ((p, t), rest)
    ∧ recv_Item s = ((0, -1), s) := by
  refine ⟨?_, rfl, ?_⟩
  · cases it <;> rfl
  · match s with
    | [] => rfl
    | Tok.int v :: rest => rfl
    | Tok.line l :: rest => rfl
    | Tok.dbl b :: rest => rfl
    | Tok.u64 b :: rest => simp [isU64Head] at h

/-- Witness for C2 (amended) at concrete inputs. -/
theorem send_recv_Item_wire_witness :
    send_Item (some 3) = [Tok.u64 3]
    ∧ recv_Item [Tok.u64 5, Tok.int 7, Tok.int 9] = ((5, 7), [Tok.int 9])
    ∧ recv_Item [Tok.int 1] = ((0, -1), [Tok.int 1]) :=
  send_recv_Item_wire (some 3) 5 7 [Tok.int 9] [Tok.int 1] (by decide)

/-- C3: for every declared element count above the safety ceiling of 50,
`_recv_Array` reports failure and leaves the stream exactly as it was
after the count was read — no double is consumed — and the caller's
buffer is untouched. -/
theorem recv_Array_rejects_over_ceiling (n : Int) (h : 50 < n)
    (rest : List Tok) (buf : List Nat) (sz : Int) :
    recv_Array (Tok.int n :: rest) buf sz = (false, buf, n, rest) := by
  simp [recv_Array, recv_Int, show ¬n < 0 by omega, show n > 50 from h]

/-- Witness for C3 at the concrete count 51. -/
theorem recv_Array_rejects_over_ceiling_witness :
    recv_Array [Tok.int 51, Tok.dbl 4, Tok.dbl 5] [1, 2] 0
      = (false, [1, 2], 51, [Tok.dbl 4, Tok.dbl 5]) :=
  recv_Array_rejects_over_ceiling 51 (by decide) [Tok.dbl 4, Tok.dbl 5] [1, 2] 0

/-- C10: `_recv_Array` writes the declared count into the caller's size
output before validating it: for every count above 50 the receive into a
joint vector fails, yet the vector's `nDOFs` field has been set to the
rejected count — a value above the 50-element ceiling — while its
`Values` array is untouched. -/
theorem recv_Array_joints_over_ceiling (n : Int) (h : 50 < n)
    (rest : List Tok) (j : tJoints) :
    recv_Array_joints (Tok.int n :: rest) j = (false, ⟨n, j.Values⟩, rest)
    ∧ 50 < (recv_Array_joints (Tok.int n :: rest) j).2.1.nDOFs := by
  have hb : recv_Array (Tok.int n :: rest) j.Values j.nDOFs
      = (false, j.Values, n, rest) := by
    simp [recv_Array, recv_Int, show ¬n < 0 by omega, show n > 50 from h]
  constructor
  · simp [recv_Array_joints, hb]
  · simp [recv_Array_joints, hb]
    exact h

/-- Witness for C10 at the concrete count 100. -/
theorem recv_Array_joints_over_ceiling_witness :
    recv_Array_joints [Tok.int 100, Tok.dbl 8] ⟨2, [6, 6]⟩
      = (false, ⟨100, [6, 6]⟩, [Tok.dbl 8])
    ∧ 50 < (recv_Array_joints [Tok.int 100, Tok.dbl 8] ⟨2, [6, 6]⟩).2.1.nDOFs :=
  recv_Array_joints_over_ceiling 100 (by decide) [Tok.dbl 8] ⟨2, [6, 6]⟩

end RoboDKModel
